import Mathlib

/-!
Verification of the Meal/Wellness Plan Generation & Persistence Pipeline
(`src/routes.py`, `src/models.py`, `src/forms.py`) against its
natural-language specification.

The database is modelled as a list of rows (insertion order = the order
SQLAlchemy's `first()` observes).  JSON (de)serialization (`json.dumps`,
`json.loads`), the external generation service (`generate_meal_plan`,
`generate_shopping_list` in `utils/meal_planner.py`, not part of this
repository's sources) and transaction commits are passed in as explicit
function parameters, so every theorem quantifies over their behaviour.
-/

/-- A calendar date as produced by `datetime.strptime(s, '%Y-%m-%d').date()`. -/
structure Date where
  year : Nat
  month : Nat
  day : Nat
deriving Repr, DecidableEq

/-- Numeric key giving the usual lexicographic order on dates. -/
def Date.key (d : Date) : Nat := d.year * 10000 + d.month * 100 + d.day

/-- One day-entry of the raw generated plan: the code reads `entry['date']`
(a `'%Y-%m-%d'` string); the meals payload is carried opaquely. -/
structure DayEntry where
  date : String
  meals : List String
deriving Repr, DecidableEq

/-- The structure returned by `generate_meal_plan`: the code accesses
`meal_plan_data['meal_plan'][0]` and `[-1]`. -/
structure RawPlanData where
  meal_plan : List DayEntry
deriving Repr, DecidableEq

/-- Shopping list data returned by `generate_shopping_list`: a mapping
from ingredient name to quantity-with-unit. -/
def ShoppingListData := List (String × String)

/-- A row of the `MealPlan` table (`src/models.py` lines 74-81).  The two
Text columns hold JSON serializations; `shopping_list` is nullable. -/
structure MealPlanRow where
  id : Nat
  user_id : Nat
  start_date : Date
  end_date : Date
  meal_plan_data : String
  shopping_list : Option String
deriving Repr, DecidableEq

/-- A row of the `MealPreference` table (`src/models.py` lines 59-72).
The two ingredient Text columns hold JSON arrays of strings; they are
modelled by the decoded list (`json.dumps` on lists of strings is
injective, so nothing is lost). -/
structure MealPreferenceRow where
  id : Nat
  user_id : Nat
  meal_type : String
  preferred_time : Option String
  calories_target : Option Int
  protein_target : Option Int
  carbs_target : Option Int
  fat_target : Option Int
  excluded_ingredients : List String
  available_ingredients : List String
  preferred_cuisine : String
deriving Repr, DecidableEq

/-- `view_meal_plan` (`src/routes.py` lines 407-411):
`MealPlan.query.filter_by(id=plan_id, user_id=current_user.id).first_or_404()`.
`none` models the 404 outcome. -/
def view_meal_plan (db : List MealPlanRow) (plan_id uid : Nat) : Option MealPlanRow :=
  (db.filter (fun p => p.id == plan_id && p.user_id == uid)).head?

/-- Split a character list at every occurrence of `sep`, keeping empty
pieces, as Python's `str.split(sep)` does on a one-character separator. -/
def splitOnChar (sep : Char) : List Char → List (List Char)
  | [] => [[]]
  | c :: cs =>
    match splitOnChar sep cs with
    | [] => if c = sep then [[], []] else [[c]]
    | piece :: rest =>
      if c = sep then [] :: piece :: rest else (c :: piece) :: rest

/-- Parse a nonempty all-digit character list as a natural number (the
digit groups `strptime` extracts for `%Y`, `%m`, `%d`). -/
def parseNatDigits (l : List Char) : Option Nat :=
  match l with
  | [] => none
  | _ :: _ => l.foldlM (fun acc c => if c.isDigit then some (acc * 10 + (c.toNat - 48)) else none) 0

/-- `datetime.strptime(s, '%Y-%m-%d').date()` (`src/routes.py` lines
385-386): two dashes, numeric fields, month in 1..12 and day in 1..31;
anything else raises `ValueError` (finer calendar checks, such as
rejecting February 30, are not modelled — no claim depends on them). -/
def parse_date (s : String) : Except String Date :=
  match splitOnChar '-' s.data with
  | [ys, ms, ds] =>
    match parseNatDigits ys, parseNatDigits ms, parseNatDigits ds with
    | some y, some m, some d =>
      if 1 ≤ m ∧ m ≤ 12 ∧ 1 ≤ d ∧ d ≤ 31 then Except.ok ⟨y, m, d⟩
      else Except.error "ValueError"
    | _, _, _ => Except.error "ValueError"
  | _ => Except.error "ValueError"

/-- The user-visible outcome of `generate_new_meal_plan`: redirect to the
preferences page with a warning, redirect to the preferences page with an
error flash, or redirect to the new plan's view page with a success flash. -/
inductive GenOutcome where
  | redirectPreferences (flash : String)
  | errorRedirect (flash : String)
  | success (planId : Nat) (flash : String)
deriving Repr, DecidableEq

/-- Whether the outcome is the success redirect. -/
def GenOutcome.isSuccess : GenOutcome → Bool
  | success _ _ => true
  | _ => false

/-- `generate_new_meal_plan` (`src/routes.py` lines 370-405).  The whole
body runs inside `try/except Exception`: any raising step short-circuits
to the `except` branch, which flashes the interpolated exception text and
redirects, leaving the database unchanged (nothing was committed).
`gen` and `genShopping` model the external `generate_meal_plan` and
`generate_shopping_list` calls (raising = `Except.error` with `str(e)`),
`dumpsPlan`/`dumpsShop` model `json.dumps`, and `commit` models
`db.session.commit()` on the single `db.session.add(meal_plan)`.
`nextId` is the fresh autoincrement primary key the insert would receive. -/
def generate_new_meal_plan
    (gen : MealPreferenceRow → Except String RawPlanData)
    (genShopping : RawPlanData → Except String ShoppingListData)
    (dumpsPlan : RawPlanData → String)
    (dumpsShop : ShoppingListData → String)
    (commit : Except String Unit)
    (uid : Nat) (prefs : List MealPreferenceRow)
    (nextId : Nat) (db : List MealPlanRow) : List MealPlanRow × GenOutcome :=
  match (prefs.filter (fun p => p.user_id == uid)).head? with
  | none => (db, GenOutcome.redirectPreferences "Please set your meal preferences first")
  | some preferences =>
    match gen preferences with
    | Except.error e => (db, GenOutcome.errorRedirect ("Error generating meal plan: " ++ e))
    | Except.ok meal_plan_data =>
      match genShopping meal_plan_data with
      | Except.error e => (db, GenOutcome.errorRedirect ("Error generating meal plan: " ++ e))
      | Except.ok shopping_list_data =>
        match meal_plan_data.meal_plan with
        | [] => (db, GenOutcome.errorRedirect "Error generating meal plan: list index out of range")
        | first :: rest =>
          match parse_date first.date with
          | Except.error e => (db, GenOutcome.errorRedirect ("Error generating meal plan: " ++ e))
          | Except.ok start_date =>
            match parse_date (rest.getLastD first).date with
            | Except.error e => (db, GenOutcome.errorRedirect ("Error generating meal plan: " ++ e))
            | Except.ok end_date =>
              match commit with
              | Except.error e => (db, GenOutcome.errorRedirect ("Error generating meal plan: " ++ e))
              | Except.ok _ =>
                (db ++ [{ id := nextId, user_id := uid,
                          start_date := start_date, end_date := end_date,
                          meal_plan_data := dumpsPlan meal_plan_data,
                          shopping_list := some (dumpsShop shopping_list_data) }],
                 GenOutcome.success nextId "Your personalized meal plan has been generated!")

/-- The parseable day-entry dates of a raw plan (used to state the
min/max date property of claim C3). -/
def entry_dates (r : RawPlanData) : List Date :=
  r.meal_plan.filterMap (fun e => (parse_date e.date).toOption)

/-- Minimum of a list of dates under the calendar order, `none` on `[]`. -/
def minDate? (l : List Date) : Option Date :=
  l.foldl (fun acc d =>
    match acc with
    | none => some d
    | some m => if d.key < m.key then some d else some m) none

/-- Python's whitespace test as used by `str.strip()`. -/
def isPySpace (c : Char) : Bool :=
  c = ' ' || c = '\t' || c = '\n' || c = '\r' || c = '\x0b' || c = '\x0c'

/-- Remove trailing whitespace characters from a character list. -/
def dropTrailing : List Char → List Char
  | [] => []
  | c :: cs =>
    match dropTrailing cs with
    | [] => if isPySpace c then [] else [c]
    | r => c :: r

/-- Python's `str.strip()`: drop leading and trailing whitespace. -/
def pyStrip (s : String) : String :=
  ⟨dropTrailing (s.data.dropWhile isPySpace)⟩

/-- `[i.strip() for i in s.split(',') if i.strip()]`
(`src/routes.py` lines 346-347). -/
def clean_ingredient_list (s : String) : List String :=
  ((splitOnChar ',' s.data).map (fun l => pyStrip ⟨l⟩)).filter (fun i => !(i == ""))

/-- The submitted `MealPreferenceForm` data (`src/forms.py` lines 5-29,
redeclared in `src/routes.py` lines 293-317): select fields as strings,
numeric and optional fields as options. -/
structure MealPreferenceForm where
  meal_type : String
  preferred_time : Option String
  calories_target : Option Int
  protein_target : Option Int
  carbs_target : Option Int
  fat_target : Option Int
  excluded_ingredients : Option String
  available_ingredients : Option String
  preferred_cuisine : String
deriving Repr, DecidableEq

/-- The `meal_type` SelectField choices. -/
def meal_type_choices : List String := ["breakfast", "lunch", "dinner", "snack"]

/-- The `preferred_cuisine` SelectField choices. -/
def preferred_cuisine_choices : List String :=
  ["any", "mediterranean", "asian", "mexican", "indian", "italian", "american",
   "vegetarian", "vegan"]

/-- WTForms `NumberRange(min, max)`: fails on a missing value and on a
value outside the closed interval. -/
def number_range (lo hi : Int) : Option Int → Bool
  | none => false
  | some v => lo ≤ v && v ≤ hi

/-- The four macro-target `NumberRange` validators of
`MealPreferenceForm` (`src/forms.py` lines 13-16). -/
def macro_targets_valid (f : MealPreferenceForm) : Bool :=
  number_range 0 2000 f.calories_target && number_range 0 200 f.protein_target &&
  number_range 0 300 f.carbs_target && number_range 0 100 f.fat_target

/-- `form.validate_on_submit()` for `MealPreferenceForm`: the SelectField
choice checks, the DataRequired TimeField, and the NumberRange bounds.
Validators reject; none of them rewrites the submitted value. -/
def validate_on_submit (f : MealPreferenceForm) : Bool :=
  meal_type_choices.contains f.meal_type &&
  f.preferred_time.isSome &&
  macro_targets_valid f &&
  preferred_cuisine_choices.contains f.preferred_cuisine

/-- Outcome of a `meal_preferences` POST: fall through to re-rendering the
page (with an optional error flash), or redirect with the success flash. -/
inductive PrefOutcome where
  | rerender (flash : Option String)
  | redirectSuccess (flash : String)
deriving Repr, DecidableEq

/-- The field assignments of `src/routes.py` lines 334-351 applied to a
preference row: every submitted field overwrites the row's column; the
ingredient strings are split on commas, stripped, and emptied of blank
items before being stored. -/
def apply_form (form : MealPreferenceForm) (p : MealPreferenceRow) : MealPreferenceRow :=
  { p with
    meal_type := form.meal_type,
    preferred_time := form.preferred_time,
    calories_target := form.calories_target,
    protein_target := form.protein_target,
    carbs_target := form.carbs_target,
    fat_target := form.fat_target,
    excluded_ingredients := clean_ingredient_list (form.excluded_ingredients.getD ""),
    available_ingredients := clean_ingredient_list (form.available_ingredients.getD ""),
    preferred_cuisine := form.preferred_cuisine }

/-- A fresh `MealPreference(user_id=current_user.id)` object before the
field assignments run; `nextId` is the autoincrement key it receives. -/
def new_preference (uid nextId : Nat) : MealPreferenceRow :=
  { id := nextId, user_id := uid, meal_type := "", preferred_time := none,
    calories_target := none, protein_target := none, carbs_target := none,
    fat_target := none, excluded_ingredients := [], available_ingredients := [],
    preferred_cuisine := "" }

/-- POST handling of `meal_preferences` (`src/routes.py` lines 319-368).
If validation fails the handler falls through and re-renders; otherwise it
looks up the row for `(user_id, meal_type)`, updates it in place when
found, else adds a new row, and commits.  A commit exception triggers
`db.session.rollback()`, so the stored rows are unchanged in that case —
the commit result is therefore consulted before the store is transformed,
which is observationally the same. -/
def meal_preferences (uid : Nat) (form : MealPreferenceForm) (nextId : Nat)
    (commit : Except String Unit) (db : List MealPreferenceRow) :
    List MealPreferenceRow × PrefOutcome :=
  if validate_on_submit form then
    match commit with
    | Except.error _ =>
      (db, PrefOutcome.rerender (some "Error updating meal preferences. Please try again."))
    | Except.ok _ =>
      match (db.filter (fun p => p.user_id == uid && p.meal_type == form.meal_type)).head? with
      | some preference =>
        (db.map (fun p => if p.id == preference.id then apply_form form p else p),
         PrefOutcome.redirectSuccess "Meal preferences updated successfully!")
      | none =>
        (db ++ [apply_form form (new_preference uid nextId)],
         PrefOutcome.redirectSuccess "Meal preferences updated successfully!")
  else (db, PrefOutcome.rerender none)

/-- At most one `MealPreference` row per `(user_id, meal_type)` pair. -/
def atMostOnePerPair (db : List MealPreferenceRow) : Prop :=
  ∀ p ∈ db, ∀ q ∈ db, p.user_id = q.user_id → p.meal_type = q.meal_type → p = q

/-- A JSON value, the result of `json.loads`. -/
inductive Json where
  | null
  | bool (b : Bool)
  | num (n : Int)
  | str (s : String)
  | arr (elems : List Json)
  | obj (fields : List (String × Json))

/-- `MealPlan.get_meal_plan` (`src/models.py` lines 83-85):
`json.loads(self.meal_plan_data) if self.meal_plan_data else {}` — NULL
and the empty string are both falsy, so both fall back to the empty dict;
`loads` models `json.loads` applied to the nonempty text. -/
def MealPlan.get_meal_plan (loads : String → Json) : Option String → Json
  | none => Json.obj []
  | some s => if s = "" then Json.obj [] else loads s

/-- `MealPlan.get_shopping_list` (`src/models.py` lines 87-89), same
shape as `get_meal_plan` on the nullable `shopping_list` column. -/
def MealPlan.get_shopping_list (loads : String → Json) : Option String → Json
  | none => Json.obj []
  | some s => if s = "" then Json.obj [] else loads s

/-- Form submission used in concrete upsert scenarios. -/
def formC4 : MealPreferenceForm :=
  { meal_type := "dinner", preferred_time := some "19:00", calories_target := some 1800,
    protein_target := some 120, carbs_target := some 250, fat_target := some 60,
    excluded_ingredients := some " peanuts , shellfish ", available_ingredients := none,
    preferred_cuisine := "italian" }

/-- The spec scenario's submission: dinner with calories_target 2500. -/
def formC5 : MealPreferenceForm :=
  { meal_type := "dinner", preferred_time := some "18:00", calories_target := some 2500,
    protein_target := some 100, carbs_target := some 200, fat_target := some 50,
    excluded_ingredients := none, available_ingredients := none,
    preferred_cuisine := "any" }

/-- A stored preference row used in concrete scenarios. -/
def prefRowA : MealPreferenceRow :=
  { id := 1, user_id := 10, meal_type := "dinner", preferred_time := some "18:00",
    calories_target := some 1500, protein_target := some 100, carbs_target := some 200,
    fat_target := some 50, excluded_ingredients := [], available_ingredients := [],
    preferred_cuisine := "any" }

/-- A generated plan whose day-entries are not sorted by date. -/
def rawPlanUnsorted : RawPlanData :=
  ⟨[⟨"2024-01-03", ["toast"]⟩, ⟨"2024-01-01", ["soup"]⟩]⟩

/-- The spec's scenario plan: entries dated 2024-01-01 then 2024-01-03. -/
def rawPlanSorted : RawPlanData :=
  ⟨[⟨"2024-01-01", ["soup"]⟩, ⟨"2024-01-03", ["toast"]⟩]⟩

/-- A second stored preference row for the same user with a different
meal type (ignored by generation, which takes the first row). -/
def prefRowB : MealPreferenceRow :=
  { prefRowA with id := 2, meal_type := "breakfast", calories_target := some 400 }

/-- Claim C1 — ownership isolation of retrieval: when every row carrying
`plan_id` belongs to user A, user B's lookup returns `none`, exactly the
result for a nonexistent `plan_id` (the filtered query is empty in both
cases); and any successful lookup returns a row whose `user_id` is the
requesting user and whose `id` is the requested plan id. -/
theorem C1_find_ownership (db : List MealPlanRow) (plan_id userA userB : Nat)
    (hdiff : userA ≠ userB)
    (hown : ∀ p ∈ db, p.id = plan_id → p.user_id = userA) :
    view_meal_plan db plan_id userB = none ∧
    (∀ u q, view_meal_plan db plan_id u = some q → q.user_id = u ∧ q.id = plan_id) := by
  constructor
  · unfold view_meal_plan
    rw [List.head?_eq_none_iff, List.filter_eq_nil_iff]
    intro p hp hpred
    simp only [Bool.and_eq_true, beq_iff_eq] at hpred
    exact hdiff ((hown p hp hpred.1).symm.trans hpred.2)
  · intro u q hq
    unfold view_meal_plan at hq
    have hmem : q ∈ db.filter (fun p => p.id == plan_id && p.user_id == u) :=
      List.mem_of_mem_head? hq
    have hpred := List.of_mem_filter hmem
    simp only [Bool.and_eq_true, beq_iff_eq] at hpred
    exact ⟨hpred.2, hpred.1⟩

/-- Concrete instance of C1: a plan with id 1 owned by user 10 is invisible
to user 20. -/
theorem C1_find_ownership_witness :
    view_meal_plan [⟨1, 10, ⟨2024, 1, 1⟩, ⟨2024, 1, 3⟩, "plan", some "list"⟩] 1 20 = none :=
  (C1_find_ownership _ 1 10 20 (by decide) (by decide)).1

/-- Claim C2 — atomic persistence: a `generate_new_meal_plan` request
either leaves the stored `MealPlan` rows exactly unchanged (every
non-success outcome: missing preferences, generation failure, shopping
list failure, empty plan, date parse failure, commit failure) or appends
exactly one row whose `shopping_list` column is populated alongside its
plan data — the single commit writes plan and list together, and no
failure persists partial state. -/
theorem C2_save_atomic
    (gen : MealPreferenceRow → Except String RawPlanData)
    (genShopping : RawPlanData → Except String ShoppingListData)
    (dumpsPlan : RawPlanData → String) (dumpsShop : ShoppingListData → String)
    (commit : Except String Unit) (uid : Nat) (prefs : List MealPreferenceRow)
    (nextId : Nat) (db db' : List MealPlanRow) (out : GenOutcome)
    (h : generate_new_meal_plan gen genShopping dumpsPlan dumpsShop commit uid prefs nextId db
          = (db', out)) :
    (out.isSuccess = false ∧ db' = db) ∨
    (out.isSuccess = true ∧ ∃ row, db' = db ++ [row] ∧ row.shopping_list ≠ none) := by
  unfold generate_new_meal_plan at h
  repeat' split at h
  all_goals cases h
  all_goals first
    | exact Or.inl ⟨rfl, rfl⟩
    | exact Or.inr ⟨rfl, _, rfl, by simp⟩

/-- Concrete instance of C2: with no stored preferences the request fails
and the plan table is unchanged. -/
theorem C2_save_atomic_witness :
    ((GenOutcome.redirectPreferences "Please set your meal preferences first").isSuccess = false ∧
      ([] : List MealPlanRow) = []) ∨
    ((GenOutcome.redirectPreferences "Please set your meal preferences first").isSuccess = true ∧
      ∃ row, ([] : List MealPlanRow) = [] ++ [row] ∧ row.shopping_list ≠ none) :=
  C2_save_atomic (fun _ => Except.error "ServiceUnavailable") (fun _ => Except.ok [])
    (fun _ => "p") (fun _ => "s") (Except.ok ()) 1 [] 1 [] []
    (GenOutcome.redirectPreferences "Please set your meal preferences first") rfl

/-- Counterexample to claim C3: the code stores the FIRST and LAST
day-entry dates (`meal_plan_data['meal_plan'][0]` / `[-1]`), not the
minimum and maximum.  With entries dated 2024-01-03 then 2024-01-01 the
persisted row has start_date = 2024-01-03 while the minimum entry date is
2024-01-01, and the stored end_date 2024-01-01 is strictly before the
stored start_date. -/
theorem C3_counterexample :
    (generate_new_meal_plan (fun _ => Except.ok rawPlanUnsorted) (fun _ => Except.ok [])
        (fun _ => "mp") (fun _ => "sl") (Except.ok ()) 10 [prefRowA] 7 []).1 =
      [{ id := 7, user_id := 10, start_date := ⟨2024, 1, 3⟩, end_date := ⟨2024, 1, 1⟩,
         meal_plan_data := "mp", shopping_list := some "sl" }] ∧
    minDate? (entry_dates rawPlanUnsorted) = some ⟨2024, 1, 1⟩ ∧
    (⟨2024, 1, 3⟩ : Date) ≠ ⟨2024, 1, 1⟩ ∧
    (⟨2024, 1, 1⟩ : Date).key < (⟨2024, 1, 3⟩ : Date).key := by
  refine ⟨rfl, rfl, by decide, by decide⟩

/-- Claim C3 as amended — the stored `start_date` is the parsed date of
the first day-entry and the stored `end_date` the parsed date of the last
day-entry of the generated `meal_plan_data`; these coincide with the
minimum and maximum only when the entries arrive sorted ascending by
date, as in the spec's scenario. -/
theorem C3_start_end_are_first_last
    (gen : MealPreferenceRow → Except String RawPlanData)
    (genShopping : RawPlanData → Except String ShoppingListData)
    (dumpsPlan : RawPlanData → String) (dumpsShop : ShoppingListData → String)
    (uid : Nat) (prefs : List MealPreferenceRow) (nextId : Nat) (db : List MealPlanRow)
    (pref : MealPreferenceRow) (raw : RawPlanData) (s : ShoppingListData)
    (first : DayEntry) (rest : List DayEntry) (sd ed : Date)
    (hpref : (prefs.filter (fun p => p.user_id == uid)).head? = some pref)
    (hgen : gen pref = Except.ok raw)
    (hshop : genShopping raw = Except.ok s)
    (hmp : raw.meal_plan = first :: rest)
    (hsd : parse_date first.date = Except.ok sd)
    (hed : parse_date (rest.getLastD first).date = Except.ok ed) :
    generate_new_meal_plan gen genShopping dumpsPlan dumpsShop (Except.ok ()) uid prefs nextId db =
      (db ++ [{ id := nextId, user_id := uid, start_date := sd, end_date := ed,
                meal_plan_data := dumpsPlan raw, shopping_list := some (dumpsShop s) }],
       GenOutcome.success nextId "Your personalized meal plan has been generated!") := by
  simp only [generate_new_meal_plan, hpref, hgen, hshop, hmp, hsd, hed]

/-- Concrete instance of the amended C3, which is the spec's scenario:
entries dated 2024-01-01 then 2024-01-03 (already sorted) are stored with
start_date 2024-01-01 and end_date 2024-01-03. -/
theorem C3_start_end_are_first_last_witness :
    generate_new_meal_plan (fun _ => Except.ok rawPlanSorted) (fun _ => Except.ok [])
        (fun _ => "mp") (fun _ => "sl") (Except.ok ()) 10 [prefRowA] 7 [] =
      ([{ id := 7, user_id := 10, start_date := ⟨2024, 1, 1⟩, end_date := ⟨2024, 1, 3⟩,
          meal_plan_data := "mp", shopping_list := some "sl" }],
       GenOutcome.success 7 "Your personalized meal plan has been generated!") :=
  C3_start_end_are_first_last _ _ _ _ 10 [prefRowA] 7 [] prefRowA rawPlanSorted []
    ⟨"2024-01-01", ["soup"]⟩ [⟨"2024-01-03", ["toast"]⟩] ⟨2024, 1, 1⟩ ⟨2024, 1, 3⟩
    rfl rfl rfl rfl rfl rfl

/-- Claim C6 — persisted plans are append-only and immutable: a
generation request either adds nothing or appends exactly one new row at
the end; every previously stored row is still present, unchanged and in
its original position (the result extends `db` as a prefix), and the new
row carries the fresh primary key, distinct from every existing id.  The
read operations `view_meal_plan` and the `list_meal_plans` query take the
row list as read-only input and return no modified state, so no exposed
operation updates or deletes a stored row. -/
theorem C6_append_only
    (gen : MealPreferenceRow → Except String RawPlanData)
    (genShopping : RawPlanData → Except String ShoppingListData)
    (dumpsPlan : RawPlanData → String) (dumpsShop : ShoppingListData → String)
    (commit : Except String Unit) (uid : Nat) (prefs : List MealPreferenceRow)
    (nextId : Nat) (db db' : List MealPlanRow) (out : GenOutcome)
    (h : generate_new_meal_plan gen genShopping dumpsPlan dumpsShop commit uid prefs nextId db
          = (db', out))
    (hfresh : ∀ p ∈ db, p.id ≠ nextId) :
    ∃ newRows, db' = db ++ newRows ∧ newRows.length ≤ 1 ∧
      ∀ r ∈ newRows, r.id = nextId ∧ ∀ p ∈ db, p.id ≠ r.id := by
  unfold generate_new_meal_plan at h
  repeat' split at h
  all_goals cases h
  all_goals first
    | exact ⟨[], (List.append_nil db).symm, by simp, by simp⟩
    | exact ⟨[_], rfl, by simp, by
        intro r hr
        rw [List.mem_singleton] at hr
        subst hr
        exact ⟨rfl, fun p hp => hfresh p hp⟩⟩

/-- Concrete instance of C6: a successful generation over an empty plan
table appends exactly the one new row with the fresh id 7. -/
theorem C6_append_only_witness :
    ∃ newRows,
      [({ id := 7, user_id := 10, start_date := ⟨2024, 1, 1⟩, end_date := ⟨2024, 1, 3⟩,
          meal_plan_data := "mp", shopping_list := some "sl" } : MealPlanRow)] =
        ([] : List MealPlanRow) ++ newRows ∧ newRows.length ≤ 1 ∧
      ∀ r ∈ newRows, r.id = 7 ∧ ∀ p ∈ ([] : List MealPlanRow), p.id ≠ r.id :=
  C6_append_only (fun _ => Except.ok rawPlanSorted) (fun _ => Except.ok [])
    (fun _ => "mp") (fun _ => "sl") (Except.ok ()) 10 [prefRowA] 7 [] _ _ rfl (by simp)

/-- Counterexample to claim C7: the failure flash is
`'Error generating meal plan: ' + str(e)` (`src/routes.py` line 404), so
two different failures produce two different user-visible messages, each
embedding the failure-specific detail — not a uniform
"please try again" outcome. -/
theorem C7_counterexample :
    (generate_new_meal_plan (fun _ => Except.error "ServiceUnavailable") (fun _ => Except.ok [])
        (fun _ => "mp") (fun _ => "sl") (Except.ok ()) 10 [prefRowA] 7 []).2 =
      GenOutcome.errorRedirect "Error generating meal plan: ServiceUnavailable" ∧
    (generate_new_meal_plan (fun _ => Except.error "QuotaExceeded") (fun _ => Except.ok [])
        (fun _ => "mp") (fun _ => "sl") (Except.ok ()) 10 [prefRowA] 7 []).2 =
      GenOutcome.errorRedirect "Error generating meal plan: QuotaExceeded" ∧
    GenOutcome.errorRedirect "Error generating meal plan: ServiceUnavailable" ≠
      GenOutcome.errorRedirect "Error generating meal plan: QuotaExceeded" :=
  ⟨rfl, rfl, by decide⟩

/-- Claim C7 as amended — every outcome of a generation request is the
success redirect, the missing-preferences redirect, or an error redirect
whose flash is `'Error generating meal plan: ' ++ detail` with the store
unchanged.  Every failing stage — generation client, shopping-list
derivation, empty plan (IndexError), date parsing (ValueError), and
commit — funnels into the single `except` branch, so the flash format is
uniform across transient and permanent failures, but the failure-specific
detail string is embedded in the user-visible message (and no distinct
logging happens at this boundary). -/
theorem C7_error_flash
    (gen : MealPreferenceRow → Except String RawPlanData)
    (genShopping : RawPlanData → Except String ShoppingListData)
    (dumpsPlan : RawPlanData → String) (dumpsShop : ShoppingListData → String)
    (commit : Except String Unit) (uid : Nat) (prefs : List MealPreferenceRow)
    (nextId : Nat) (db db' : List MealPlanRow) (out : GenOutcome)
    (h : generate_new_meal_plan gen genShopping dumpsPlan dumpsShop commit uid prefs nextId db
          = (db', out)) :
    out.isSuccess = true ∨
    out = GenOutcome.redirectPreferences "Please set your meal preferences first" ∨
    ∃ e, out = GenOutcome.errorRedirect ("Error generating meal plan: " ++ e) ∧ db' = db := by
  unfold generate_new_meal_plan at h
  repeat' split at h
  all_goals cases h
  all_goals first
    | exact Or.inl rfl
    | exact Or.inr (Or.inl rfl)
    | exact Or.inr (Or.inr ⟨_, rfl, rfl⟩)

/-- Concrete instance of the amended C7: a commit failure with detail
"CommitFailed" — a stage the generation client does not control — still
flashes the uniform message with its detail embedded and keeps the table
empty. -/
theorem C7_error_flash_witness :
    (GenOutcome.errorRedirect ("Error generating meal plan: " ++ "CommitFailed")).isSuccess
        = true ∨
    GenOutcome.errorRedirect ("Error generating meal plan: " ++ "CommitFailed") =
      GenOutcome.redirectPreferences "Please set your meal preferences first" ∨
    ∃ e, GenOutcome.errorRedirect ("Error generating meal plan: " ++ "CommitFailed") =
        GenOutcome.errorRedirect ("Error generating meal plan: " ++ e) ∧
      ([] : List MealPlanRow) = [] :=
  C7_error_flash (fun _ => Except.ok rawPlanSorted) (fun _ => Except.ok [])
    (fun _ => "mp") (fun _ => "sl") (Except.error "CommitFailed") 10 [prefRowA] 7 [] []
    (GenOutcome.errorRedirect ("Error generating meal plan: " ++ "CommitFailed")) rfl

/-- Claim C10 — generation reads a single preference row:
`MealPreference.query.filter_by(user_id=...).first()` filters only by
user, so the whole request behaves exactly as if the user's first
preference row were the only one (rows for other meal types are ignored);
and the redirect to the preferences page happens precisely when the user
has zero preference rows. -/
theorem C10_first_preference_only
    (gen : MealPreferenceRow → Except String RawPlanData)
    (genShopping : RawPlanData → Except String ShoppingListData)
    (dumpsPlan : RawPlanData → String) (dumpsShop : ShoppingListData → String)
    (commit : Except String Unit) (uid : Nat) (prefs : List MealPreferenceRow)
    (nextId : Nat) (db : List MealPlanRow) (p0 : MealPreferenceRow)
    (hp : (prefs.filter (fun p => p.user_id == uid)).head? = some p0) :
    generate_new_meal_plan gen genShopping dumpsPlan dumpsShop commit uid prefs nextId db =
      generate_new_meal_plan gen genShopping dumpsPlan dumpsShop commit uid [p0] nextId db ∧
    ∀ prefs2 : List MealPreferenceRow,
      ((generate_new_meal_plan gen genShopping dumpsPlan dumpsShop commit uid prefs2 nextId db).2 =
          GenOutcome.redirectPreferences "Please set your meal preferences first" ↔
        prefs2.filter (fun p => p.user_id == uid) = []) := by
  have hmem : p0 ∈ prefs.filter (fun p => p.user_id == uid) :=
    List.mem_of_mem_head? hp
  have hpred : (p0.user_id == uid) = true := (List.mem_filter.mp hmem).2
  constructor
  · have h2 : (([p0] : List MealPreferenceRow).filter (fun p => p.user_id == uid)).head?
        = some p0 := by
      simp [List.filter_cons, hpred]
    simp only [generate_new_meal_plan, hp, h2]
  · intro prefs2
    constructor
    · intro hout
      by_contra hne
      obtain ⟨q, t, hq⟩ : ∃ q t, prefs2.filter (fun p => p.user_id == uid) = q :: t := by
        cases hh : prefs2.filter (fun p => p.user_id == uid) with
        | nil => exact absurd hh hne
        | cons a t => exact ⟨a, t, rfl⟩
      have hq' : (prefs2.filter (fun p => p.user_id == uid)).head? = some q := by
        rw [hq]; rfl
      simp only [generate_new_meal_plan, hq'] at hout
      repeat' split at hout
      all_goals simp at hout
    · intro hfilter
      have hnone : (prefs2.filter (fun p => p.user_id == uid)).head? = none := by
        rw [hfilter]; rfl
      simp only [generate_new_meal_plan, hnone]

/-- Concrete instance of C10: with rows for dinner and breakfast stored
in that order, generation behaves exactly as with only the dinner row. -/
theorem C10_first_preference_only_witness :
    generate_new_meal_plan (fun _ => Except.ok rawPlanSorted) (fun _ => Except.ok [])
        (fun _ => "mp") (fun _ => "sl") (Except.ok ()) 10 [prefRowA, prefRowB] 7 [] =
      generate_new_meal_plan (fun _ => Except.ok rawPlanSorted) (fun _ => Except.ok [])
        (fun _ => "mp") (fun _ => "sl") (Except.ok ()) 10 [prefRowA] 7 [] :=
  (C10_first_preference_only (fun _ => Except.ok rawPlanSorted) (fun _ => Except.ok [])
    (fun _ => "mp") (fun _ => "sl") (Except.ok ()) 10 [prefRowA, prefRowB] 7 [] prefRowA rfl).1

/-- Mapping a function that preserves `user_id` and `meal_type` of every
member preserves the one-row-per-pair invariant. -/
theorem atMostOnePerPair_map (db : List MealPreferenceRow)
    (f : MealPreferenceRow → MealPreferenceRow)
    (hf : ∀ a ∈ db, (f a).user_id = a.user_id ∧ (f a).meal_type = a.meal_type)
    (hinv : atMostOnePerPair db) : atMostOnePerPair (db.map f) := by
  intro p' hp' q' hq' hu hm
  obtain ⟨a, ha, rfl⟩ := List.mem_map.mp hp'
  obtain ⟨b, hb, rfl⟩ := List.mem_map.mp hq'
  have hfa := hf a ha
  have hfb := hf b hb
  have hab : a = b := by
    apply hinv a ha b hb
    · rw [← hfa.1, ← hfb.1]; exact hu
    · rw [← hfa.2, ← hfb.2]; exact hm
  rw [hab]

/-- Claim C4 — upsert semantics of the preference save: starting from a
store with unique primary keys and at most one row per
`(user_id, meal_type)` pair, a submission preserves the invariant; and it
either leaves the store untouched (failure), updates the existing row for
the pair in place (same row count, a row for the pair existed), or
appends exactly one new row (only when no row for the pair existed). -/
theorem C4_upsert_preserves_uniqueness
    (uid : Nat) (form : MealPreferenceForm) (nextId : Nat) (commit : Except String Unit)
    (db : List MealPreferenceRow)
    (hids : (db.map (fun p => p.id)).Nodup)
    (hinv : atMostOnePerPair db) :
    atMostOnePerPair (meal_preferences uid form nextId commit db).1 ∧
    ((meal_preferences uid form nextId commit db).1 = db ∨
     ((meal_preferences uid form nextId commit db).1.length = db.length ∧
       db.filter (fun p => p.user_id == uid && p.meal_type == form.meal_type) ≠ []) ∨
     (∃ newRow, (meal_preferences uid form nextId commit db).1 = db ++ [newRow] ∧
       db.filter (fun p => p.user_id == uid && p.meal_type == form.meal_type) = [])) := by
  unfold meal_preferences
  split
  · split
    · -- commit failure: rollback leaves the store unchanged
      exact ⟨hinv, Or.inl rfl⟩
    · split
      · next preference heq =>
        -- a row for (user_id, meal_type) exists: in-place update
        have hmem : preference ∈
            db.filter (fun p => p.user_id == uid && p.meal_type == form.meal_type) :=
          List.mem_of_mem_head? heq
        have hsplit := List.mem_filter.mp hmem
        have hprefdb : preference ∈ db := hsplit.1
        have hmt : preference.meal_type = form.meal_type := by
          have := hsplit.2
          simp only [Bool.and_eq_true, beq_iff_eq] at this
          exact this.2
        constructor
        · apply atMostOnePerPair_map db _ _ hinv
          intro a ha
          dsimp only
          by_cases hid : (a.id == preference.id) = true
          · have haeq : a = preference :=
              List.inj_on_of_nodup_map hids ha hprefdb (beq_iff_eq.mp hid)
            rw [if_pos hid]
            subst haeq
            exact ⟨rfl, hmt.symm⟩
          · rw [if_neg hid]
            exact ⟨rfl, rfl⟩
        · refine Or.inr (Or.inl ⟨List.length_map db _, ?_⟩)
          intro hnil
          rw [hnil] at heq
          cases heq
      · next heq =>
        -- no row for the pair: a fresh row is appended
        have hfilter :
            db.filter (fun p => p.user_id == uid && p.meal_type == form.meal_type) = [] :=
          List.head?_eq_none_iff.mp heq
        have hnotpair : ∀ p ∈ db, ¬(p.user_id = uid ∧ p.meal_type = form.meal_type) := by
          intro p hp hcontra
          have hpmem : p ∈
              db.filter (fun p => p.user_id == uid && p.meal_type == form.meal_type) := by
            rw [List.mem_filter]
            exact ⟨hp, by simp [hcontra.1, hcontra.2]⟩
          rw [hfilter] at hpmem
          cases hpmem
        constructor
        · intro p hp q hq hu hm
          rw [List.mem_append] at hp hq
          rcases hp with hp | hp
          · rcases hq with hq | hq
            · exact hinv p hp q hq hu hm
            · rw [List.mem_singleton] at hq
              subst hq
              exact absurd ⟨by simpa [apply_form, new_preference] using hu,
                by simpa [apply_form, new_preference] using hm⟩ (hnotpair p hp)
          · rw [List.mem_singleton] at hp
            subst hp
            rcases hq with hq | hq
            · exact absurd ⟨by simpa [apply_form, new_preference] using hu.symm,
                by simpa [apply_form, new_preference] using hm.symm⟩ (hnotpair q hq)
            · rw [List.mem_singleton] at hq
              rw [hq]
        · exact Or.inr (Or.inr ⟨_, rfl, hfilter⟩)
  · -- validation failed: the store is unchanged
    exact ⟨hinv, Or.inl rfl⟩

/-- Concrete instance of C4: resubmitting dinner preferences over a store
that already holds a dinner row keeps at most one row per pair. -/
theorem C4_upsert_preserves_uniqueness_witness :
    atMostOnePerPair (meal_preferences 10 formC4 2 (Except.ok ()) [prefRowA]).1 ∧
    ((meal_preferences 10 formC4 2 (Except.ok ()) [prefRowA]).1 = [prefRowA] ∨
     ((meal_preferences 10 formC4 2 (Except.ok ()) [prefRowA]).1.length = [prefRowA].length ∧
       [prefRowA].filter (fun p => p.user_id == 10 && p.meal_type == formC4.meal_type) ≠ []) ∨
     (∃ newRow, (meal_preferences 10 formC4 2 (Except.ok ()) [prefRowA]).1 =
         [prefRowA] ++ [newRow] ∧
       [prefRowA].filter (fun p => p.user_id == 10 && p.meal_type == formC4.meal_type) = [])) :=
  C4_upsert_preserves_uniqueness 10 formC4 2 (Except.ok ()) [prefRowA] (by simp)
    (by intro p hp q hq hu hm; rw [List.mem_singleton] at hp hq; rw [hp, hq])

/-- Counterexample to claim C5: submitting dinner preferences with
calories_target 2500 fails the `NumberRange(min=0, max=2000)` validator,
so the handler falls through without touching the store — nothing is
stored at all, in particular no clamped value 2000. -/
theorem C5_counterexample :
    validate_on_submit formC5 = false ∧
    meal_preferences 10 formC5 1 (Except.ok ()) [] = ([], PrefOutcome.rerender none) := by
  exact ⟨by decide, by decide⟩

/-- Claim C5 as amended — out-of-range numeric macro values are rejected
by form validation, not clamped: whenever any macro target fails its
`NumberRange` bound, `validate_on_submit` is false and the submission
leaves the preference store unchanged, re-rendering the form. -/
theorem C5_out_of_range_rejected
    (uid : Nat) (form : MealPreferenceForm) (nextId : Nat) (commit : Except String Unit)
    (db : List MealPreferenceRow)
    (h : macro_targets_valid form = false) :
    validate_on_submit form = false ∧
    (meal_preferences uid form nextId commit db).1 = db ∧
    (meal_preferences uid form nextId commit db).2 = PrefOutcome.rerender none := by
  have hv : validate_on_submit form = false := by
    simp [validate_on_submit, h]
  refine ⟨hv, ?_, ?_⟩ <;> simp [meal_preferences, hv]

/-- Concrete instance of the amended C5: the 2500-calorie submission is
rejected and the store stays empty. -/
theorem C5_out_of_range_rejected_witness :
    validate_on_submit formC5 = false ∧
    (meal_preferences 10 formC5 1 (Except.ok ()) []).1 = [] ∧
    (meal_preferences 10 formC5 1 (Except.ok ()) []).2 = PrefOutcome.rerender none :=
  C5_out_of_range_rejected 10 formC5 1 (Except.ok ()) [] (by decide)

/-- Claim C8 — the `MealPlan` accessors: a NULL or empty column yields
the empty dict, and a nonempty column yields the `json.loads`-decoded
value, for both `get_meal_plan` and `get_shopping_list`. -/
theorem C8_accessor_defaults (loads : String → Json) (s : String) (hs : s ≠ "") :
    MealPlan.get_meal_plan loads none = Json.obj [] ∧
    MealPlan.get_meal_plan loads (some "") = Json.obj [] ∧
    MealPlan.get_meal_plan loads (some s) = loads s ∧
    MealPlan.get_shopping_list loads none = Json.obj [] ∧
    MealPlan.get_shopping_list loads (some "") = Json.obj [] ∧
    MealPlan.get_shopping_list loads (some s) = loads s := by
  refine ⟨rfl, ?_, ?_, rfl, ?_, ?_⟩
  · simp [MealPlan.get_meal_plan]
  · simp [MealPlan.get_meal_plan, hs]
  · simp [MealPlan.get_shopping_list]
  · simp [MealPlan.get_shopping_list, hs]

/-- Concrete instance of C8 with a decoder returning `null` on the
nonempty column "x". -/
theorem C8_accessor_defaults_witness :
    MealPlan.get_meal_plan (fun _ => Json.null) none = Json.obj [] ∧
    MealPlan.get_meal_plan (fun _ => Json.null) (some "") = Json.obj [] ∧
    MealPlan.get_meal_plan (fun _ => Json.null) (some "x") = (fun _ => Json.null) "x" ∧
    MealPlan.get_shopping_list (fun _ => Json.null) none = Json.obj [] ∧
    MealPlan.get_shopping_list (fun _ => Json.null) (some "") = Json.obj [] ∧
    MealPlan.get_shopping_list (fun _ => Json.null) (some "x") = (fun _ => Json.null) "x" :=
  C8_accessor_defaults (fun _ => Json.null) "x" (by decide)

/-- The head of `dropWhile p l` never satisfies `p`. -/
theorem head?_dropWhile_not (p : Char → Bool) (l : List Char) :
    ∀ c, (l.dropWhile p).head? = some c → p c = false := by
  induction l with
  | nil => intro c h; cases h
  | cons x xs ih =>
    intro c h
    rw [List.dropWhile_cons] at h
    split at h
    · exact ih c h
    · next hx =>
      simp only [List.head?_cons, Option.some.injEq] at h
      subst h
      exact Bool.eq_false_iff.mpr hx

/-- The last character surviving `dropTrailing` is not whitespace. -/
theorem dropTrailing_getLast_not (l : List Char) :
    ∀ c, (dropTrailing l).getLast? = some c → isPySpace c = false := by
  induction l with
  | nil => intro c h; cases h
  | cons x xs ih =>
    intro c h
    unfold dropTrailing at h
    split at h
    · split at h
      · cases h
      · next hx =>
        simp only [List.getLast?_singleton, Option.some.injEq] at h
        subst h
        exact Bool.eq_false_iff.mpr hx
    · next heq =>
      obtain ⟨y, ys, hyy⟩ : ∃ y ys, dropTrailing xs = y :: ys := by
        cases hd : dropTrailing xs with
        | nil => exact absurd hd heq
        | cons y ys => exact ⟨y, ys, rfl⟩
      rw [hyy] at h
      rw [List.getLast?_cons_cons] at h
      rw [← hyy] at h
      exact ih c h

/-- `dropTrailing` only removes from the back: a nonempty result keeps
the original head. -/
theorem dropTrailing_head?_eq (l : List Char) (c : Char)
    (h : (dropTrailing l).head? = some c) : l.head? = some c := by
  cases l with
  | nil => cases h
  | cons x xs =>
    unfold dropTrailing at h
    split at h
    · split at h
      · cases h
      · exact h
    · exact h

/-- Claim C9 — ingredient cleaning: every item stored by the preference
handler is obtained by comma-splitting, stripping and dropping blanks, so
no stored item is empty or starts/ends with whitespace; an absent form
field (`data or ''`) yields the empty list. -/
theorem C9_ingredient_cleaning (field : Option String) :
    (∀ item ∈ clean_ingredient_list (field.getD ""), item ≠ "" ∧
      (∀ c, item.data.head? = some c → isPySpace c = false) ∧
      (∀ c, item.data.getLast? = some c → isPySpace c = false)) ∧
    clean_ingredient_list ((none : Option String).getD "") = [] := by
  constructor
  · intro item hmem
    unfold clean_ingredient_list at hmem
    obtain ⟨hmap, hne⟩ := List.mem_filter.mp hmem
    obtain ⟨piece, hpiece, hitem⟩ := List.mem_map.mp hmap
    subst hitem
    refine ⟨?_, ?_, ?_⟩
    · intro hempty
      rw [hempty] at hne
      simp at hne
    · intro c hc
      exact head?_dropWhile_not isPySpace _ c (dropTrailing_head?_eq _ c hc)
    · intro c hc
      exact dropTrailing_getLast_not _ c hc
  · decide

/-- Concrete instance of C9: cleaning " a , ,b " stores exactly
["a", "b"], and the first stored item is nonempty with a
non-whitespace first and last character. -/
theorem C9_ingredient_cleaning_witness :
    clean_ingredient_list ((some " a , ,b " : Option String).getD "") = ["a", "b"] ∧
    "a" ≠ "" ∧ isPySpace 'a' = false :=
  ⟨by decide,
   ((C9_ingredient_cleaning (some " a , ,b ")).1 "a" (by decide)).1,
   ((C9_ingredient_cleaning (some " a , ,b ")).1 "a" (by decide)).2.2 'a' (by decide)⟩
